import Mathlib

/-!
Verification of the ContextChain repository against its specification.

The Python source is shallowly embedded: JSON/dict schemas become structures
with `Option` fields (a `none` field models a missing key), MongoDB writes
become an explicit trace of `(collection, record)` pairs, and Python
exceptions become `Except PyErr`.
-/

namespace ContextChain

/-! ## Data model (from the schema produced by `app/cli/main.py` and read by
`app/engine/validator.py` and `app/engine/executor.py`) -/

/-- Python exceptions raised by the embedded code: `ValueError msg` and
`KeyError key`. -/
inductive PyErr where
  | valueError (msg : String)
  | keyError (key : String)
  deriving DecidableEq, Repr

/-- The `global_config` object of a schema.  `allowed_task_types` is optional
because `validate_schema` accesses it with `[...]` (KeyError when absent);
`retry_on_failure` and `max_retries` are the retry policy fields written by
the CLI. -/
structure GlobalConfig where
  allowed_task_types : Option (List String)
  retry_on_failure : Bool
  max_retries : Nat
  deriving DecidableEq, Repr

/-- One task object of a schema, with the fields the validator and executor
touch plus the fields the claims vary (`task_type`, `endpoint`,
`parameters`).  `task_type` is optional because the validator accesses it
with `task["task_type"]` (KeyError when absent). -/
structure Task where
  task_id : Nat
  task_type : Option String
  endpoint : String
  inputs : List Nat
  output_collection : String
  parameters : List (String × String)
  deriving DecidableEq, Repr

/-- A pipeline schema document.  Every field read via `.get` or `[...]` in the
source is optional here; `none` models a missing key. -/
structure Schema where
  pipeline_id : Option String
  tasks : Option (List Task)
  global_config : Option GlobalConfig
  deriving DecidableEq, Repr

/-! ## Validator (`app/engine/validator.py`) -/

/-- `not schema.get("pipeline_id")`: true when the key is absent or the value
is the empty string (the falsy strings). -/
def pipelineFalsy (s : Schema) : Bool :=
  match s.pipeline_id with
  | none => true
  | some p => p == ""

/-- The membership test `task["task_type"] in schema["global_config"]["allowed_task_types"]`
read totally: it is `false` whenever any of the three keys is missing. -/
def memberOfAllowed (gc : Option GlobalConfig) (t : Task) : Bool :=
  match t.task_type, gc with
  | some tt, some g =>
      match g.allowed_task_types with
      | some al => al.contains tt
      | none => false
  | _, _ => false

/-- The `for task in schema.get("tasks", [])` loop of `validate_schema`,
with Python's left-to-right evaluation of
`task["task_type"] not in schema["global_config"]["allowed_task_types"]`:
the task's `task_type` key is read first, then `global_config`, then
`allowed_task_types`. -/
def validateTasks (gc : Option GlobalConfig) : List Task → Except PyErr Unit
  | [] => .ok ()
  | t :: rest =>
      match t.task_type with
      | none => .error (.keyError "task_type")
      | some tt =>
          match gc with
          | none => .error (.keyError "global_config")
          | some g =>
              match g.allowed_task_types with
              | none => .error (.keyError "allowed_task_types")
              | some al =>
                  if tt ∈ al then validateTasks gc rest
                  else .error (.valueError ("Invalid task_type: " ++ tt))

/-- `validate_schema` of `app/engine/validator.py`. -/
def validate_schema (s : Schema) : Except PyErr Unit :=
  if pipelineFalsy s then .error (.valueError "Missing pipeline_id")
  else validateTasks s.global_config (s.tasks.getD [])

/-! ## Executor (`app/engine/executor.py`) -/

/-- A result document inserted by the executor. -/
structure ResultRecord where
  run_id : String
  task_id : Nat
  status : String
  output : String
  deriving DecidableEq, Repr

/-- One MongoDB write: the target collection and the inserted document. -/
abbrev Write := String × ResultRecord

/-- `db[coll].insert_one(r)` on a database modelled as its write trace. -/
def insert_one (db : List Write) (coll : String) (r : ResultRecord) : List Write :=
  db ++ [(coll, r)]

/-- The document built inside the executor's loop body. -/
def mockRecord (run_id : String) (t : Task) : ResultRecord :=
  { run_id := run_id, task_id := t.task_id, status := "COMPLETED",
    output := "Mock output for task " ++ toString t.task_id }

/-- The `for task in schema["tasks"]` loop of `execute_pipeline`. -/
def execPipelineLoop (run_id : String) : List Task → List Write → List Write
  | [], db => db
  | t :: rest, db =>
      execPipelineLoop run_id rest (insert_one db t.output_collection (mockRecord run_id t))

/-- `execute_pipeline` of `app/engine/executor.py`.  The nondeterministic
`run_id = f"run_{time.time()}"` is a parameter; the returned pair is the
final database trace and the outcome (the trailing `print` reads
`schema["pipeline_id"]`, so a missing key raises KeyError after the writes;
console output itself is not modelled).  A missing `"tasks"` key raises
KeyError before any write. -/
def execute_pipeline (run_id : String) (s : Schema) (db : List Write) :
    List Write × Except PyErr Unit :=
  match s.tasks with
  | none => (db, .error (.keyError "tasks"))
  | some ts =>
      let db2 := execPipelineLoop run_id ts db
      match s.pipeline_id with
      | none => (db2, .error (.keyError "pipeline_id"))
      | some _ => (db2, .ok ())

/-- `execute_single_task` of `app/engine/executor.py`: one insert for the
given task; the `schema` argument is accepted but unused by the body. -/
def execute_single_task (run_id : String) (s : Schema) (t : Task) (db : List Write) :
    List Write :=
  insert_one db t.output_collection (mockRecord run_id t)

/-! ## Helper lemmas about the executor loop -/

lemma execPipelineLoop_eq (run_id : String) (ts : List Task) (db : List Write) :
    execPipelineLoop run_id ts db
      = db ++ ts.map (fun t => (t.output_collection, mockRecord run_id t)) := by
  induction ts generalizing db with
  | nil => simp [execPipelineLoop]
  | cons t rest ih => simp [execPipelineLoop, insert_one, ih]

/-! ## Concrete schemas used as witnesses and counterexamples -/

def c1Task1 : Task :=
  { task_id := 1, task_type := some "LOCAL", endpoint := "path.to.function",
    inputs := [], output_collection := "task_results", parameters := [] }

def c1Task2 : Task :=
  { task_id := 2, task_type := some "GET", endpoint := "http://api/x",
    inputs := [1], output_collection := "task_results", parameters := [] }

def c1Schema : Schema :=
  { pipeline_id := some "demo", tasks := some [c1Task1, c1Task2],
    global_config := some { allowed_task_types := some ["LOCAL", "GET"],
                            retry_on_failure := true, max_retries := 2 } }

/-! ## Claim C1 -/

/-- Claim C1: for every schema carrying a task list and a pipeline id,
`execute_pipeline` appends exactly one result record per task, in the order
the tasks appear, each carrying that task's `task_id`, the shared run
identifier of the call, status `"COMPLETED"` and the mock output string,
into that task's `output_collection` — and nothing else happens: the outcome
is `ok`, with no dependency ordering, retries or concurrency. -/
theorem execute_pipeline_one_record_per_task (run_id : String) (s : Schema)
    (db : List Write) (ts : List Task) (pid : String)
    (hts : s.tasks = some ts) (hpid : s.pipeline_id = some pid) :
    (execute_pipeline run_id s db).1
        = db ++ ts.map (fun t => (t.output_collection,
            { run_id := run_id, task_id := t.task_id, status := "COMPLETED",
              output := "Mock output for task " ++ toString t.task_id }))
      ∧ (execute_pipeline run_id s db).2 = .ok () := by
  refine ⟨?_, ?_⟩ <;> simp [execute_pipeline, hts, hpid, execPipelineLoop_eq, mockRecord]

theorem execute_pipeline_one_record_per_task_witness :
    (c1Schema.tasks = some [c1Task1, c1Task2] ∧ c1Schema.pipeline_id = some "demo") ∧
    ((execute_pipeline "run_1" c1Schema []).1
        = [] ++ [c1Task1, c1Task2].map (fun t => (t.output_collection,
            { run_id := "run_1", task_id := t.task_id, status := "COMPLETED",
              output := "Mock output for task " ++ toString t.task_id }))
      ∧ (execute_pipeline "run_1" c1Schema []).2 = .ok ()) :=
  ⟨⟨rfl, rfl⟩,
   execute_pipeline_one_record_per_task "run_1" c1Schema [] [c1Task1, c1Task2] "demo" rfl rfl⟩

/-! ## Claim C5 -/

def c5TaskA : Task :=
  { task_id := 1, task_type := some "LLM", endpoint := "model.call",
    inputs := [], output_collection := "task_results",
    parameters := [("timeout", "30")] }

def c5TaskB : Task :=
  { task_id := 1, task_type := some "POST", endpoint := "http://svc/run",
    inputs := [], output_collection := "task_results", parameters := [] }

def c5SchemaA : Schema :=
  { pipeline_id := some "p5", tasks := some [c5TaskA],
    global_config := some { allowed_task_types := some ["LLM"],
                            retry_on_failure := true, max_retries := 5 } }

def c5SchemaB : Schema :=
  { pipeline_id := some "p5", tasks := some [c5TaskB],
    global_config := some { allowed_task_types := some ["POST"],
                            retry_on_failure := false, max_retries := 0 } }

/-- Claim C5: the executor's behaviour depends only on each task's `task_id`
and `output_collection` (plus the run identifier): two schemas agreeing on
those — however much they differ in `task_type`, `endpoint`, `parameters`,
`retry_on_failure` or `max_retries` — produce identical write traces and
outcomes under the same run identifier. -/
theorem execute_pipeline_independent_of_types_and_retries
    (run_id : String) (s1 s2 : Schema) (db : List Write)
    (ts1 ts2 : List Task) (p1 p2 : String)
    (h1 : s1.tasks = some ts1) (h2 : s2.tasks = some ts2)
    (hp1 : s1.pipeline_id = some p1) (hp2 : s2.pipeline_id = some p2)
    (hlen : ts1.length = ts2.length)
    (hagree : ∀ i (hi1 : i < ts1.length) (hi2 : i < ts2.length),
      ts1[i].task_id = ts2[i].task_id ∧
      ts1[i].output_collection = ts2[i].output_collection) :
    execute_pipeline run_id s1 db = execute_pipeline run_id s2 db := by
  have hmap : ts1.map (fun t => (t.output_collection, mockRecord run_id t))
      = ts2.map (fun t => (t.output_collection, mockRecord run_id t)) := by
    apply List.ext_get (by simp [hlen])
    intro n h1n h2n
    simp only [List.get_eq_getElem, List.getElem_map]
    obtain ⟨hid, hcoll⟩ := hagree n (by simpa using h1n) (by simpa using h2n)
    simp [mockRecord, hid, hcoll]
  simp [execute_pipeline, h1, h2, hp1, hp2, execPipelineLoop_eq, hmap]

theorem execute_pipeline_independent_witness :
    (c5TaskA.task_type = some "LLM" ∧ c5TaskB.task_type = some "POST" ∧
     c5SchemaA.global_config.map GlobalConfig.retry_on_failure = some true ∧
     c5SchemaB.global_config.map GlobalConfig.retry_on_failure = some false) ∧
    execute_pipeline "run_1" c5SchemaA [] = execute_pipeline "run_1" c5SchemaB [] :=
  ⟨⟨rfl, rfl, rfl, rfl⟩,
   execute_pipeline_independent_of_types_and_retries "run_1" c5SchemaA c5SchemaB []
     [c5TaskA] [c5TaskB] "p5" "p5" rfl rfl rfl rfl rfl
     (fun i hi1 _ => by
       have hi : i = 0 := Nat.lt_one_iff.mp (by simpa using hi1)
       subst hi
       exact ⟨rfl, rfl⟩)⟩

/-! ## Claim C7 -/

/-- Claim C7: two calls of `execute_single_task` on the same task insert
records with equal `output` fields, whatever the run identifiers, schemas
and prior database contents — single-task execution is output-idempotent. -/
theorem execute_single_task_output_deterministic
    (r1 r2 : String) (s1 s2 : Schema) (t : Task) (db1 db2 : List Write) :
    ((execute_single_task r1 s1 t db1).getLast?.map (fun w => w.2.output))
      = ((execute_single_task r2 s2 t db2).getLast?.map (fun w => w.2.output)) := by
  simp [execute_single_task, insert_one, List.getLast?_concat, mockRecord]

/-! ## Claim C6 -/

def c6Schema : Schema :=
  { pipeline_id := some "p6", tasks := some [], global_config := none }

def c6Task : Task :=
  { task_id := 2, task_type := some "LOCAL", endpoint := "path.to.function",
    inputs := [1], output_collection := "task_results", parameters := [] }

/-- Claim C6 counterexample: task 2 declares task 1 as an input, the database
holds no result at all for task 1, yet `execute_single_task` writes a
`"COMPLETED"` record for task 2 instead of failing with a missing-dependency
error. -/
theorem c6_counterexample :
    c6Task.inputs = [1] ∧
    execute_single_task "run_1" c6Schema c6Task []
      = [("task_results",
          { run_id := "run_1", task_id := 2, status := "COMPLETED",
            output := "Mock output for task 2" })] :=
  ⟨rfl, rfl⟩

/-- Claim C6 amended: `execute_single_task` always appends exactly one
`"COMPLETED"` record for the given task; it never reads prior results and
has no failure path, so a missing ancestor output goes undetected. -/
theorem execute_single_task_always_inserts (run_id : String) (s : Schema)
    (t : Task) (db : List Write) :
    execute_single_task run_id s t db
      = db ++ [(t.output_collection,
          { run_id := run_id, task_id := t.task_id, status := "COMPLETED",
            output := "Mock output for task " ++ toString t.task_id })] := rfl

/-! ## Claim C4 -/

/-- Number of result documents in a trace carrying the given `task_id` — the
executor's notion of an attempt, since each pass over a task inserts exactly
one record. -/
def writesFor (trace : List Write) (tid : Nat) : Nat :=
  (trace.filter (fun w => w.2.task_id == tid)).length

/-- Number of entries of a task list with the given `task_id`. -/
def countTask (ts : List Task) (tid : Nat) : Nat :=
  (ts.filter (fun t => t.task_id == tid)).length

def c4Task : Task :=
  { task_id := 1, task_type := some "LOCAL", endpoint := "always.fails",
    inputs := [], output_collection := "task_results", parameters := [] }

def c4Schema : Schema :=
  { pipeline_id := some "p4", tasks := some [c4Task],
    global_config := some { allowed_task_types := some ["LOCAL"],
                            retry_on_failure := true, max_retries := 2 } }

/-- Claim C4 counterexample: with `retry_on_failure = true` and
`max_retries = 2` the claim demands `2 + 1 = 3` attempts on an
always-failing task, but the executor performs exactly one write for task 1
— and that write has status `"COMPLETED"`, so no invocation can fail at
all. -/
theorem c4_counterexample :
    (c4Schema.global_config.map GlobalConfig.retry_on_failure = some true) ∧
    (c4Schema.global_config.map GlobalConfig.max_retries = some 2) ∧
    writesFor (execute_pipeline "run_1" c4Schema []).1 1 = 1 ∧ (1 : Nat) ≠ 2 + 1 ∧
    (execute_pipeline "run_1" c4Schema []).1.map (fun w => w.2.status) = ["COMPLETED"] :=
  ⟨rfl, rfl, rfl, by decide, rfl⟩

/-- Claim C4 amended: pipeline execution makes exactly one attempt per task
list entry — as many writes for a task id as that id has entries —
regardless of `retry_on_failure` and `max_retries`: the executor never
consults `global_config`. -/
theorem execute_pipeline_one_attempt_per_task (run_id : String) (s : Schema)
    (ts : List Task) (tid : Nat) (hts : s.tasks = some ts) :
    writesFor (execute_pipeline run_id s []).1 tid = countTask ts tid ∧
    ∀ gc1 gc2 : Option GlobalConfig,
      execute_pipeline run_id { s with global_config := gc1 } []
        = execute_pipeline run_id { s with global_config := gc2 } [] := by
  constructor
  · have hpred : ((fun w : Write => w.2.task_id == tid) ∘ fun t : Task =>
        (t.output_collection, mockRecord run_id t)) = fun t : Task => t.task_id == tid := rfl
    cases hpid : s.pipeline_id <;>
      simp [execute_pipeline, hts, hpid, execPipelineLoop_eq, writesFor, countTask,
        List.filter_map, hpred]
  · intro gc1 gc2
    cases s
    rfl

theorem execute_pipeline_one_attempt_witness :
    (c4Schema.tasks = some [c4Task]) ∧
    (writesFor (execute_pipeline "run_1" c4Schema []).1 1 = countTask [c4Task] 1 ∧
     ∀ gc1 gc2 : Option GlobalConfig,
       execute_pipeline "run_1" { c4Schema with global_config := gc1 } []
         = execute_pipeline "run_1" { c4Schema with global_config := gc2 } []) :=
  ⟨rfl, execute_pipeline_one_attempt_per_task "run_1" c4Schema [c4Task] 1 rfl⟩

/-! ## Claim C2 -/

lemma memberOfAllowed_of_no_type (gc : Option GlobalConfig) (t : Task)
    (h : t.task_type = none) : memberOfAllowed gc t = false := by
  cases gc <;> simp [memberOfAllowed, h]

lemma memberOfAllowed_of_no_gc (t : Task) : memberOfAllowed none t = false := by
  cases htt : t.task_type <;> simp [memberOfAllowed, htt]

lemma validateTasks_ok_iff (gc : Option GlobalConfig) (l : List Task) :
    validateTasks gc l = .ok () ↔ ∀ t ∈ l, memberOfAllowed gc t = true := by
  induction l with
  | nil => simp [validateTasks]
  | cons t rest ih =>
      cases htt : t.task_type with
      | none =>
          have hm : memberOfAllowed gc t = false := memberOfAllowed_of_no_type gc t htt
          simp [validateTasks, htt, hm]
      | some tt =>
          cases hgc : gc with
          | none =>
              subst hgc
              have hm : memberOfAllowed none t = false := memberOfAllowed_of_no_gc t
              simp [validateTasks, htt, hm]
          | some g =>
              subst hgc
              cases hal : g.allowed_task_types with
              | none =>
                  have hm : memberOfAllowed (some g) t = false := by
                    simp [memberOfAllowed, htt, hal]
                  simp [validateTasks, htt, hal, hm]
              | some al =>
                  have hm : memberOfAllowed (some g) t = al.contains tt := by
                    simp [memberOfAllowed, htt, hal]
                  by_cases hmem : tt ∈ al
                  · have hm2 : memberOfAllowed (some g) t = true := by
                      simpa [hm] using hmem
                    simpa [validateTasks, htt, hal, hmem, hm2] using ih
                  · have hm2 : memberOfAllowed (some g) t = false := by
                      simpa [hm] using hmem
                    simp [validateTasks, htt, hal, hmem, hm2]

/-- Claim C2: `validate_schema` raises an error precisely when the schema's
`pipeline_id` is missing or falsy, or some task's `task_type` fails the
membership test against `global_config.allowed_task_types` (a missing
`task_type`, `global_config` or `allowed_task_types` key failing that
test); on every schema passing both checks it returns without error, so a
disallowed `task_type` is rejected by the validator itself. -/
theorem validate_schema_error_iff (s : Schema) :
    (∃ e, validate_schema s = .error e) ↔
      (pipelineFalsy s = true ∨
        ∃ t ∈ s.tasks.getD [], memberOfAllowed s.global_config t = false) := by
  cases hp : pipelineFalsy s with
  | true => simp [validate_schema, hp]
  | false =>
      rw [validate_schema, if_neg (by simp [hp])]
      constructor
      · rintro ⟨e, he⟩
        refine Or.inr ?_
        by_contra hno
        push_neg at hno
        have hall : ∀ t ∈ s.tasks.getD [], memberOfAllowed s.global_config t = true := by
          intro t ht
          simpa using hno t ht
        rw [(validateTasks_ok_iff _ _).mpr hall] at he
        cases he
      · rintro (h | ⟨t, ht, hmem⟩)
        · simp at h
        · cases hres : validateTasks s.global_config (s.tasks.getD []) with
          | ok u =>
              cases u
              have := (validateTasks_ok_iff _ _).mp hres t ht
              rw [this] at hmem
              cases hmem
          | error e => exact ⟨e, rfl⟩

/-! ## Claim C3 -/

/-- The input ids of the task with a given id (the dependency edges leaving
that node): task A depends on task B iff B's id appears in A's `inputs`. -/
def succs (ts : List Task) (i : Nat) : List Nat :=
  match ts.find? (fun t => t.task_id == i) with
  | some t => t.inputs
  | none => []

/-- The ids reachable from `i` along dependency edges in 1 up to `k` steps. -/
def reachWithin (ts : List Task) : Nat → Nat → List Nat
  | 0, _ => []
  | k + 1, i => (succs ts i).flatMap (fun j => j :: reachWithin ts k j)

/-- The dependency graph has a cycle: some task reaches its own id within
`ts.length` steps (enough steps for any cycle of the finite graph). -/
def hasCycle (ts : List Task) : Bool :=
  ts.any (fun t => (reachWithin ts ts.length t.task_id).contains t.task_id)

def cycTask1 : Task :=
  { task_id := 1, task_type := some "LOCAL", endpoint := "a", inputs := [2],
    output_collection := "task_results", parameters := [] }

def cycTask2 : Task :=
  { task_id := 2, task_type := some "LOCAL", endpoint := "b", inputs := [1],
    output_collection := "task_results", parameters := [] }

def cycSchema : Schema :=
  { pipeline_id := some "cyclic", tasks := some [cycTask1, cycTask2],
    global_config := some { allowed_task_types := some ["LOCAL"],
                            retry_on_failure := false, max_retries := 0 } }

/-- Claim C3 counterexample: a schema whose two tasks depend on each other —
a dependency cycle — is accepted by `validate_schema`, so schemas accepted
by validation need not be acyclic, and no cycle error is ever raised. -/
theorem c3_counterexample :
    hasCycle [cycTask1, cycTask2] = true ∧ validate_schema cycSchema = .ok () :=
  ⟨rfl, rfl⟩

/-- Claim C3 amended: `validate_schema` performs no dependency-graph check:
a schema whose graph is cyclic is still accepted whenever its `pipeline_id`
is truthy and every `task_type` passes the allow-list test. -/
theorem validate_schema_accepts_cycles (s : Schema) (ts : List Task)
    (hts : s.tasks = some ts)
    (hp : pipelineFalsy s = false)
    (hall : ∀ t ∈ ts, memberOfAllowed s.global_config t = true)
    (hcyc : hasCycle ts = true) :
    validate_schema s = .ok () := by
  rw [validate_schema, if_neg (by simp [hp])]
  exact (validateTasks_ok_iff _ _).mpr (by simpa [hts] using hall)

theorem validate_schema_accepts_cycles_witness :
    (cycSchema.tasks = some [cycTask1, cycTask2] ∧
     pipelineFalsy cycSchema = false ∧
     (∀ t ∈ [cycTask1, cycTask2], memberOfAllowed cycSchema.global_config t = true) ∧
     hasCycle [cycTask1, cycTask2] = true) ∧
    validate_schema cycSchema = .ok () :=
  ⟨⟨rfl, rfl, by decide, rfl⟩,
   validate_schema_accepts_cycles cycSchema [cycTask1, cycTask2] rfl rfl (by decide) rfl⟩

/-! ## Claim C10 -/

def c10BadTask : Task :=
  { task_id := 1, task_type := some "EVIL", endpoint := "e", inputs := [],
    output_collection := "task_results", parameters := [] }

def c10NoTypeTask : Task :=
  { task_id := 2, task_type := none, endpoint := "e", inputs := [],
    output_collection := "task_results", parameters := [] }

def c10Schema : Schema :=
  { pipeline_id := some "p10", tasks := some [c10BadTask, c10NoTypeTask],
    global_config := some { allowed_task_types := some ["LOCAL"],
                            retry_on_failure := true, max_retries := 2 } }

/-- Claim C10 counterexample: this schema has a non-empty `pipeline_id` and
a task lacking the `task_type` key, yet `validate_schema` raises
`ValueError` (for the earlier disallowed task type), not `KeyError`. -/
theorem c10_counterexample :
    c10Schema.pipeline_id = some "p10" ∧
    c10NoTypeTask ∈ c10Schema.tasks.getD [] ∧ c10NoTypeTask.task_type = none ∧
    validate_schema c10Schema = .error (.valueError "Invalid task_type: EVIL") :=
  ⟨rfl, by decide, rfl, rfl⟩

def c10GoodTask : Task :=
  { task_id := 1, task_type := some "LOCAL", endpoint := "e", inputs := [],
    output_collection := "task_results", parameters := [] }

def c10MissingGC : Schema :=
  { pipeline_id := some "p10b", tasks := some [c10GoodTask],
    global_config := none }

/-- Claim C10 amended: with a truthy `pipeline_id` and at least one task,
`validate_schema` raises an unguarded `KeyError` — not its documented
`ValueError` — whenever `global_config` is missing, `allowed_task_types` is
missing, or the FIRST task lacks the `task_type` key (a later task lacking
`task_type` can instead be preempted by a `ValueError` on an earlier
task). -/
theorem validate_schema_keyerror_on_malformed (s : Schema) (t : Task)
    (rest : List Task) (hp : pipelineFalsy s = false)
    (hts : s.tasks = some (t :: rest))
    (h : s.global_config = none
       ∨ (∃ g, s.global_config = some g ∧ g.allowed_task_types = none)
       ∨ t.task_type = none) :
    ∃ k, validate_schema s = .error (.keyError k) := by
  have hbody : validate_schema s = validateTasks s.global_config (t :: rest) := by
    rw [validate_schema, if_neg (by simp [hp]), hts]
    rfl
  rw [hbody]
  cases htt : t.task_type with
  | none => exact ⟨"task_type", by simp [validateTasks, htt]⟩
  | some tt =>
      rcases h with hgc | ⟨g, hgc, hal⟩ | htt2
      · exact ⟨"global_config", by simp [validateTasks, htt, hgc]⟩
      · exact ⟨"allowed_task_types", by simp [validateTasks, htt, hgc, hal]⟩
      · rw [htt] at htt2
        cases htt2

theorem validate_schema_keyerror_witness :
    (pipelineFalsy c10MissingGC = false ∧
     c10MissingGC.tasks = some [c10GoodTask] ∧
     c10MissingGC.global_config = none) ∧
    ∃ k, validate_schema c10MissingGC = .error (.keyError k) :=
  ⟨⟨rfl, rfl, rfl⟩,
   validate_schema_keyerror_on_malformed c10MissingGC c10GoodTask [] rfl rfl (Or.inl rfl)⟩

/-! ## Claim C8 — the Dependency Resolver

Modelled from the spec: the Dependency Resolver of §4.1 is absent from the
implementation (the executor performs no dependency ordering), so `resolve`
is built from the spec's words: repeatedly emit the frontier of tasks whose
dependencies are all already satisfied, each frontier enumerated in
ascending `task_id`; fail (`none`, the `CycleError` outcome) when tasks
remain but none is ready. -/

/-- The ids of a task list, in order. -/
def taskIds (ts : List Task) : List Nat := ts.map Task.task_id

/-- A task is ready once all of its declared predecessor ids are done. -/
def isReady (done : List Nat) (t : Task) : Bool :=
  t.inputs.all (fun i => decide (i ∈ done))

/-- The tasks of `rem` with no unresolved dependency at this point. -/
def frontier (done : List Nat) (rem : List Task) : List Task :=
  rem.filter (isReady done)

/-- The ids of the current frontier, in ascending order. -/
def frontierIds (done : List Nat) (rem : List Task) : List Nat :=
  List.insertionSort (· ≤ ·) (taskIds (frontier done rem))

/-- The tasks of `rem` still blocked at this point. -/
def blocked (done : List Nat) (rem : List Task) : List Task :=
  rem.filter (fun t => ! isReady done t)

/-- Modelled from the spec: the frontier loop of `resolve`, with explicit
fuel (one unit per round; `rem.length` rounds always suffice). -/
def resolveAux : Nat → List Nat → List Task → Option (List (List Nat))
  | _, _, [] => some []
  | 0, _, _ :: _ => none
  | fuel + 1, done, r :: rs =>
      if frontier done (r :: rs) = [] then none
      else
        match resolveAux fuel (done ++ frontierIds done (r :: rs)) (blocked done (r :: rs)) with
        | none => none
        | some fs => some (frontierIds done (r :: rs) :: fs)

/-- Modelled from the spec: `resolve(tasks) -> ordering | fails(CycleError)`
of §4.1, returning the sequence of frontiers. -/
def resolve (ts : List Task) : Option (List (List Nat)) :=
  resolveAux ts.length [] ts

/-- Acyclicity of the dependency graph, characterized by a rank function
strictly decreasing along dependency edges (a topological height). -/
def Acyclic (ts : List Task) : Prop :=
  ∃ rank : Nat → Nat, ∀ t ∈ ts, ∀ i ∈ t.inputs, rank i < rank t.task_id

lemma exists_min_rank (rank : Nat → Nat) (l : List Task) (h : l ≠ []) :
    ∃ t ∈ l, ∀ u ∈ l, rank t.task_id ≤ rank u.task_id := by
  induction l with
  | nil => exact absurd rfl h
  | cons a l ih =>
      cases l with
      | nil => exact ⟨a, by simp, by simp⟩
      | cons b m =>
          obtain ⟨t, htmem, htmin⟩ := ih (by simp)
          by_cases hc : rank a.task_id ≤ rank t.task_id
          · refine ⟨a, by simp, ?_⟩
            intro u hu
            rcases List.mem_cons.mp hu with rfl | hu
            · exact le_refl _
            · exact le_trans hc (htmin u hu)
          · refine ⟨t, List.mem_cons_of_mem _ htmem, ?_⟩
            intro u hu
            rcases List.mem_cons.mp hu with rfl | hu
            · exact le_of_lt (lt_of_not_le hc)
            · exact htmin u hu

lemma exists_ready (rank : Nat → Nat) (done : List Nat) (rem : List Task)
    (hrank : ∀ t ∈ rem, ∀ i ∈ t.inputs, rank i < rank t.task_id)
    (hclosed : ∀ t ∈ rem, ∀ i ∈ t.inputs, i ∈ done ∨ i ∈ taskIds rem)
    (hne : rem ≠ []) :
    ∃ t ∈ rem, isReady done t = true := by
  obtain ⟨t, htmem, htmin⟩ := exists_min_rank rank rem hne
  refine ⟨t, htmem, ?_⟩
  simp only [isReady, List.all_eq_true, decide_eq_true_eq]
  intro i hi
  rcases hclosed t htmem i hi with hdone | hrem
  · exact hdone
  · exfalso
    obtain ⟨u, humem, huid⟩ := List.mem_map.mp hrem
    have h1 : rank i < rank t.task_id := hrank t htmem i hi
    have h2 : rank t.task_id ≤ rank u.task_id := htmin u humem
    rw [huid] at h2
    omega

lemma resolveAux_sound (rank : Nat → Nat) :
    ∀ (fuel : Nat) (done : List Nat) (rem : List Task),
      rem.length ≤ fuel →
      (∀ t ∈ rem, ∀ i ∈ t.inputs, rank i < rank t.task_id) →
      (∀ t ∈ rem, ∀ i ∈ t.inputs, i ∈ done ∨ i ∈ taskIds rem) →
      (taskIds rem).Nodup →
      ∃ fs, resolveAux fuel done rem = some fs ∧
        fs.flatten.Perm (taskIds rem) ∧
        (∀ f ∈ fs, List.Sorted (· ≤ ·) f) ∧
        (∀ k (hk : k < fs.length) (t : Task), t ∈ rem → t.task_id ∈ fs.get ⟨k, hk⟩ →
          ∀ i ∈ t.inputs, i ∈ done ∨ i ∈ (fs.take k).flatten) := by
  intro fuel
  induction fuel with
  | zero =>
      intro done rem hlen _ _ _
      have hremnil : rem = [] := List.length_eq_zero.mp (Nat.le_zero.mp hlen)
      subst hremnil
      refine ⟨[], rfl, by simp [taskIds], by simp, ?_⟩
      intro k hk
      exact absurd hk (Nat.not_lt_zero k)
  | succ fuel ih =>
      intro done rem hlen hrank hclosed hnd
      cases rem with
      | nil =>
          refine ⟨[], rfl, by simp [taskIds], by simp, ?_⟩
          intro k hk
          exact absurd hk (Nat.not_lt_zero k)
      | cons r rs =>
          obtain ⟨t0, ht0mem, ht0ready⟩ :=
            exists_ready rank done (r :: rs) hrank hclosed (by simp)
          have hfrne : frontier done (r :: rs) ≠ [] := by
            intro hemp
            have ht0fr : t0 ∈ frontier done (r :: rs) :=
              List.mem_filter.mpr ⟨ht0mem, ht0ready⟩
            rw [hemp] at ht0fr
            exact absurd ht0fr (List.not_mem_nil t0)
          have hperm : (frontier done (r :: rs) ++ blocked done (r :: rs)).Perm (r :: rs) :=
            List.filter_append_perm _ _
          have hidsperm : (frontierIds done (r :: rs)).Perm (taskIds (frontier done (r :: rs))) :=
            List.perm_insertionSort _ _
          have hpermIds :
              (taskIds (frontier done (r :: rs)) ++ taskIds (blocked done (r :: rs))).Perm
                (taskIds (r :: rs)) := by
            have hmapped := hperm.map Task.task_id
            simpa [taskIds, List.map_append] using hmapped
          have hndall : (taskIds (frontier done (r :: rs)) ++ taskIds (blocked done (r :: rs))).Nodup :=
            hpermIds.nodup_iff.mpr hnd
          have hnd' : (taskIds (blocked done (r :: rs))).Nodup :=
            (List.nodup_append.mp hndall).2.1
          have hlenfr : 1 ≤ (frontier done (r :: rs)).length := by
            cases hfr : frontier done (r :: rs) with
            | nil => exact absurd hfr hfrne
            | cons x xs => simp
          have hlensum :
              (frontier done (r :: rs)).length + (blocked done (r :: rs)).length
                = (r :: rs).length := by
            simpa [List.length_append] using hperm.length_eq
          have hlen' : (blocked done (r :: rs)).length ≤ fuel := by
            have hupper : (r :: rs).length ≤ fuel + 1 := hlen
            omega
          have hsub : ∀ t ∈ blocked done (r :: rs), t ∈ (r :: rs) :=
            fun t ht => List.mem_of_mem_filter ht
          have hrank' : ∀ t ∈ blocked done (r :: rs), ∀ i ∈ t.inputs, rank i < rank t.task_id :=
            fun t ht i hi => hrank t (hsub t ht) i hi
          have hclosed' : ∀ t ∈ blocked done (r :: rs), ∀ i ∈ t.inputs,
              i ∈ done ++ frontierIds done (r :: rs) ∨ i ∈ taskIds (blocked done (r :: rs)) := by
            intro t ht i hi
            rcases hclosed t (hsub t ht) i hi with hdone | hmemids
            · exact Or.inl (List.mem_append_left _ hdone)
            · have hsplit : i ∈ taskIds (frontier done (r :: rs)) ++ taskIds (blocked done (r :: rs)) :=
                hpermIds.mem_iff.mpr hmemids
              rcases List.mem_append.mp hsplit with hfr | hbl
              · exact Or.inl (List.mem_append_right _ (hidsperm.mem_iff.mpr hfr))
              · exact Or.inr hbl
          obtain ⟨fs', heq', hpermJ, hsort', hdep'⟩ :=
            ih (done ++ frontierIds done (r :: rs)) (blocked done (r :: rs))
              hlen' hrank' hclosed' hnd'
          refine ⟨frontierIds done (r :: rs) :: fs', ?_, ?_, ?_, ?_⟩
          · show resolveAux (fuel + 1) done (r :: rs) = some (frontierIds done (r :: rs) :: fs')
            simp only [resolveAux]
            rw [if_neg hfrne, heq']
          · rw [List.flatten_cons]
            exact (hidsperm.append hpermJ).trans hpermIds
          · intro f hf
            rcases List.mem_cons.mp hf with rfl | hf
            · exact List.sorted_insertionSort _ _
            · exact hsort' f hf
          · intro k hk t htmem htin i hi
            cases k with
            | zero =>
                have htin0 : t.task_id ∈ frontierIds done (r :: rs) := by simpa using htin
                have hid : t.task_id ∈ taskIds (frontier done (r :: rs)) :=
                  hidsperm.mem_iff.mp htin0
                obtain ⟨u, humem, huid⟩ := List.mem_map.mp hid
                have hu2 := List.mem_filter.mp humem
                have hteq : u = t :=
                  List.inj_on_of_nodup_map (by simpa [taskIds] using hnd) hu2.1 htmem huid
                have hready : isReady done t = true := hteq ▸ hu2.2
                have hall : ∀ j ∈ t.inputs, j ∈ done := by
                  simpa [isReady, List.all_eq_true, decide_eq_true_eq] using hready
                exact Or.inl (hall i hi)
            | succ j =>
                have hj : j < fs'.length := by simpa using hk
                have htin' : t.task_id ∈ fs'.get ⟨j, hj⟩ := by simpa using htin
                have hfl : t.task_id ∈ fs'.flatten :=
                  List.mem_flatten.mpr ⟨fs'.get ⟨j, hj⟩, List.get_mem fs' j hj, htin'⟩
                have hidbl : t.task_id ∈ taskIds (blocked done (r :: rs)) :=
                  hpermJ.mem_iff.mp hfl
                obtain ⟨u, humem, huid⟩ := List.mem_map.mp hidbl
                have hteq : u = t :=
                  List.inj_on_of_nodup_map (by simpa [taskIds] using hnd)
                    (hsub u humem) htmem huid
                have htbl : t ∈ blocked done (r :: rs) := hteq ▸ humem
                rcases hdep' j hj t htbl htin' i hi with hdi | hflat
                · rcases List.mem_append.mp hdi with hdn | hids
                  · exact Or.inl hdn
                  · refine Or.inr ?_
                    rw [List.take_succ_cons, List.flatten_cons]
                    exact List.mem_append_left _ hids
                · refine Or.inr ?_
                  rw [List.take_succ_cons, List.flatten_cons]
                  exact List.mem_append_right _ hflat

/-- Claim C8: for every valid schema — accepted by `validate_schema`, with
unique task ids, every input referencing an existing task id, and an acyclic
dependency graph — `resolve` terminates successfully with a partition of all
task ids into frontiers: the flattened frontiers are a permutation of the
task ids, each frontier is enumerated in ascending `task_id`, and every
task's dependencies lie in strictly earlier frontiers. -/
theorem resolve_levels_valid_schema (s : Schema) (ts : List Task)
    (hts : s.tasks = some ts)
    (hval : validate_schema s = .ok ())
    (hnd : (taskIds ts).Nodup)
    (href : ∀ t ∈ ts, ∀ i ∈ t.inputs, i ∈ taskIds ts)
    (hacyc : Acyclic ts) :
    ∃ fs, resolve ts = some fs ∧
      fs.flatten.Perm (taskIds ts) ∧
      (∀ f ∈ fs, List.Sorted (· ≤ ·) f) ∧
      (∀ k (hk : k < fs.length) (t : Task), t ∈ ts → t.task_id ∈ fs.get ⟨k, hk⟩ →
        ∀ i ∈ t.inputs, i ∈ (fs.take k).flatten) := by
  obtain ⟨rank, hrank⟩ := hacyc
  obtain ⟨fs, heq, hperm, hsort, hdep⟩ :=
    resolveAux_sound rank ts.length [] ts (le_refl _) hrank
      (fun t ht i hi => Or.inr (href t ht i hi)) hnd
  refine ⟨fs, heq, hperm, hsort, ?_⟩
  intro k hk t ht htin i hi
  rcases hdep k hk t ht htin i hi with h | h
  · exact absurd h (List.not_mem_nil i)
  · exact h

def exTask3 : Task :=
  { task_id := 3, task_type := some "LOCAL", endpoint := "step.three", inputs := [2],
    output_collection := "task_results", parameters := [] }

def exSchema : Schema :=
  { pipeline_id := some "chain", tasks := some [c1Task1, c1Task2, exTask3],
    global_config := some { allowed_task_types := some ["LOCAL", "GET"],
                            retry_on_failure := true, max_retries := 2 } }

/-- Sanity evaluation on the spec's Scenario A: a three-task chain resolves
to the frontiers `[1], [2], [3]`. -/
lemma resolve_chain_eval : resolve [c1Task1, c1Task2, exTask3] = some [[1], [2], [3]] := rfl

theorem resolve_levels_witness :
    (exSchema.tasks = some [c1Task1, c1Task2, exTask3] ∧
     validate_schema exSchema = .ok () ∧
     (taskIds [c1Task1, c1Task2, exTask3]).Nodup ∧
     (∀ t ∈ [c1Task1, c1Task2, exTask3], ∀ i ∈ t.inputs,
        i ∈ taskIds [c1Task1, c1Task2, exTask3]) ∧
     Acyclic [c1Task1, c1Task2, exTask3]) ∧
    (∃ fs, resolve [c1Task1, c1Task2, exTask3] = some fs ∧
      fs.flatten.Perm (taskIds [c1Task1, c1Task2, exTask3]) ∧
      (∀ f ∈ fs, List.Sorted (· ≤ ·) f) ∧
      (∀ k (hk : k < fs.length) (t : Task), t ∈ [c1Task1, c1Task2, exTask3] →
        t.task_id ∈ fs.get ⟨k, hk⟩ →
        ∀ i ∈ t.inputs, i ∈ (fs.take k).flatten)) :=
  ⟨⟨rfl, rfl, by decide, by decide, ⟨fun n => n, by decide⟩⟩,
   resolve_levels_valid_schema exSchema [c1Task1, c1Task2, exTask3] rfl rfl
     (by decide) (by decide) ⟨fun n => n, by decide⟩⟩

/-! ## Claim C9 — module loading

A minimal model of Python's import machinery, enough to decide whether a
module body's import statements can succeed.  Each repository module is
transcribed with the import statements its source file executes and the
top-level names its body defines. -/

/-- One Python import statement: `import m` or `from m import names`. -/
inductive ImportStmt where
  | importMod (m : String)
  | fromImport (m : String) (names : List String)
  deriving DecidableEq, Repr

/-- A module of the repository: its dotted name, the import statements its
body runs, and the top-level names its body defines. -/
structure Module where
  name : String
  stmts : List ImportStmt
  defines : List String
  deriving DecidableEq, Repr

/-- `app/engine/executor.py`. -/
def executorModule : Module :=
  { name := "app.engine.executor",
    stmts := [.fromImport "pymongo" ["MongoClient"], .importMod "time"],
    defines := ["MongoClient", "time", "execute_pipeline", "execute_single_task"] }

/-- `app/engine/validator.py`. -/
def validatorModule : Module :=
  { name := "app.engine.validator",
    stmts := [],
    defines := ["validate_schema"] }

/-- `app/db/collections.py`. -/
def collectionsModule : Module :=
  { name := "app.db.collections",
    stmts := [],
    defines := ["setup_collections"] }

/-- `app/registry/version_manager.py`: defines only the logging names and
the class `VersionManager` — none of `push_schema`, `list_versions`,
`rollback_version`. -/
def versionManagerModule : Module :=
  { name := "app.registry.version_manager",
    stmts := [.fromImport "typing" ["Dict", "Any"], .importMod "logging"],
    defines := ["Dict", "Any", "logging", "logger", "VersionManager"] }

/-- `app/registry/schema_loader.py`: its body runs a from-import of
`registry` out of `app.engine.registry` and a from-import of
`VersionManager` out of top-level `version_manager`. -/
def schemaLoaderModule : Module :=
  { name := "app.registry.schema_loader",
    stmts := [.importMod "json", .importMod "os",
      .fromImport "typing" ["Dict", "Any"], .importMod "logging",
      .fromImport "app.engine.validator" ["validate_schema"],
      .fromImport "app.engine.registry" ["registry"],
      .fromImport "version_manager" ["VersionManager"]],
    defines := ["json", "os", "Dict", "Any", "logging", "logger", "SchemaLoader"] }

/-- `app/cli/main.py`: line 10 is `from app.registry.version_manager import
push_schema, list_versions, rollback_version`. -/
def cliMainModule : Module :=
  { name := "app.cli.main",
    stmts := [.importMod "click", .importMod "sys", .importMod "json", .importMod "yaml",
      .fromImport "datetime" ["datetime"], .fromImport "pathlib" ["Path"],
      .fromImport "app.engine.validator" ["validate_schema"],
      .fromImport "app.engine.executor" ["execute_pipeline", "execute_single_task"],
      .fromImport "app.registry.version_manager" ["push_schema", "list_versions", "rollback_version"],
      .fromImport "app.registry.schema_loader" ["load_schema"],
      .fromImport "app.db.mongo_client" ["get_mongo_client"],
      .fromImport "app.db.collections" ["setup_collections"]],
    defines := ["show_banner", "ColoredGroup", "cli", "configure_task", "init",
      "schema_compile", "schema_push", "run", "run_task", "version_list",
      "version_rollback", "ccshare_init", "ccshare_join", "ccshare_status",
      "logs", "results", "schema_pull", "list_pipelines"] }

/-- The Python modules present in the repository's source tree. -/
def repoModules : List Module :=
  [executorModule, validatorModule, cliMainModule, schemaLoaderModule,
   versionManagerModule, collectionsModule]

/-- Third-party and standard-library modules, assumed importable. -/
def externalModules : List String :=
  ["click", "sys", "json", "yaml", "datetime", "pathlib", "pymongo", "time",
   "typing", "logging", "os"]

/-- Look a repository module up by its dotted name. -/
def findModule (n : String) : Option Module :=
  repoModules.find? (fun m => m.name == n)

/-- Whether one import statement succeeds: `import m` needs the module to
exist; `from m import names` additionally needs every name to be defined by
`m` (external modules are assumed to export whatever is asked). -/
def importOk (st : ImportStmt) : Bool :=
  match st with
  | .importMod m => externalModules.contains m || (findModule m).isSome
  | .fromImport m names =>
      if externalModules.contains m then true
      else
        match findModule m with
        | none => false
        | some md => names.all (fun x => md.defines.contains x)

/-- Whether a module body gets past its import statements. -/
def moduleLoads (m : Module) : Bool := m.stmts.all importOk

/-- Claim C9: the CLI module and the schema loader cannot be loaded at all:
`app/cli/main.py` imports `push_schema`, `list_versions` and
`rollback_version` from `app.registry.version_manager`, which exists but
defines none of the three; `app/registry/schema_loader.py` imports the
modules `app.engine.registry` and top-level `version_manager`, neither of
which exists in the source tree — so both bodies fail at import time,
before any command or loader behaviour can occur. -/
theorem cli_and_loader_fail_at_import :
    moduleLoads cliMainModule = false ∧
    moduleLoads schemaLoaderModule = false ∧
    (findModule "app.registry.version_manager").isSome = true ∧
    versionManagerModule.defines.contains "push_schema" = false ∧
    versionManagerModule.defines.contains "list_versions" = false ∧
    versionManagerModule.defines.contains "rollback_version" = false ∧
    findModule "app.engine.registry" = none ∧
    findModule "version_manager" = none ∧
    moduleLoads executorModule = true ∧
    moduleLoads validatorModule = true := by
  decide

end ContextChain
